import Mathlib

/-!
Verification of the ai_game_dev binding layer and of the game-generation
core contract its specification describes.

Sources embedded here:
- src/cpp/ai-game-dev/include/ai_game_dev.hpp : the GameEngine enum, the
  GameConfig builder, the GameResult structure.
- src/nodejs/ai-game-dev/src/native/ai_game_dev.cc : the InitWorker and
  CreateGameWorker callback plumbing.
- The core service (ProcessState, ConfigResolver, GenerationEngine,
  JobRegistry) is not present in the repository; its definitions below are
  modelled from the specification and are marked as such.
-/

/-- Game engine enumeration, from GameEngine in ai_game_dev.hpp. -/
inductive GameEngine
  | Bevy
  | Godot
  | Arcade
  | Auto
deriving DecidableEq, Repr

/-- Game configuration structure, from GameConfig in ai_game_dev.hpp.
Field defaults follow the C++ member initializers. -/
structure GameConfig where
  engine : GameEngine := GameEngine.Auto
  complexity : String := "intermediate"
  target_audience : String := ""
  features : List String := []
deriving DecidableEq, Repr

/-- Builder method with_engine from ai_game_dev.hpp: assigns the engine. -/
def GameConfig.with_engine (c : GameConfig) (e : GameEngine) : GameConfig :=
  { c with engine := e }

/-- Builder method with_complexity from ai_game_dev.hpp. -/
def GameConfig.with_complexity (c : GameConfig) (comp : String) : GameConfig :=
  { c with complexity := comp }

/-- Builder method with_target_audience from ai_game_dev.hpp. -/
def GameConfig.with_target_audience (c : GameConfig) (audience : String) : GameConfig :=
  { c with target_audience := audience }

/-- Builder method with_features from ai_game_dev.hpp: replaces the list. -/
def GameConfig.with_features (c : GameConfig) (feat : List String) : GameConfig :=
  { c with features := feat }

/-- Builder method add_feature from ai_game_dev.hpp: features.push_back(feature),
appending at the end of the vector. -/
def GameConfig.add_feature (c : GameConfig) (feature : String) : GameConfig :=
  { c with features := c.features ++ [feature] }

/-- Game generation result, from GameResult in ai_game_dev.hpp. -/
structure GameResult where
  title : String := ""
  description : String := ""
  engine : String := ""
  success : Bool := false
  files_generated : List String := []
  output_directory : String := ""
  error_message : String := ""
deriving DecidableEq, Repr

/-- Utility engine_to_string from ai_game_dev.hpp, emitting the catalog
display names used at the JSON boundary. -/
def engine_to_string : GameEngine → String
  | GameEngine.Bevy => "Bevy"
  | GameEngine.Godot => "Godot"
  | GameEngine.Arcade => "Arcade"
  | GameEngine.Auto => "Auto"

/-! ## Node.js binding layer, from ai_game_dev.cc -/

/-- A value handed to a Node.js callback argument slot: Nan::Null(),
a v8 Boolean, Nan::Error(msg), or a parsed JSON value. -/
inductive NodeValue
  | null
  | boolean (b : Bool)
  | errObj (msg : String)
  | jsonVal (s : String)
deriving DecidableEq, Repr

/-- From InitWorker in ai_game_dev.cc: Execute stores the value of
ai_game_dev_init() and never sets an error message, so the async worker
always invokes HandleOKCallback, which calls the callback with
argv = [ Nan::Null(), Nan::New(result == 0) ]. The external init result
is a parameter. -/
def runInitWorker (extInit : Unit → Int) : NodeValue × NodeValue :=
  (NodeValue.null, NodeValue.boolean (decide (extInit () = 0)))

/-! ## Spec-modelled core service -/

/-- Modelled from the spec: GenerationJob lifecycle states
Pending, Running, Succeeded, Failed. -/
inductive JobState
  | Pending
  | Running
  | Succeeded
  | Failed
deriving DecidableEq, Repr

/-- A state is terminal when it is Succeeded or Failed. -/
def JobState.isTerminal : JobState → Bool
  | JobState.Succeeded => true
  | JobState.Failed => true
  | JobState.Pending => false
  | JobState.Running => false

/-- Modelled from the spec: ResolvedConfig is a GameConfig whose engine has
been concretized by the ConfigResolver (Auto is replaced). -/
structure ResolvedConfig where
  engine : GameEngine
  complexity : String
  target_audience : String
  features : List String
deriving DecidableEq, Repr

/-- Modelled from the spec: a GenerationJob record. The created_at
timestamp of the spec is omitted since no claim touches real time. -/
structure GenerationJob where
  handle : Int
  state : JobState
  description : String
  config : ResolvedConfig
  result : Option GameResult
  error : Option String
deriving DecidableEq, Repr

/-- Modelled from the spec: opaque error from the external synthesis
capability, carrying a human-readable message. -/
inductive GenError
  | err (msg : String)
deriving DecidableEq, Repr

/-- Modelled from the spec: raw artifacts returned by the external
synthesize capability, mapped into a GameResult on success. -/
structure RawArtifacts where
  title : String
  files : List String
deriving DecidableEq, Repr

/-- The external content-generation capability, a black-box function
per the spec. -/
def SynthFn : Type :=
  String → ResolvedConfig → Except GenError RawArtifacts

/-- Lowercases a character and maps spaces to dashes, for directory slugs. -/
def slugChar (c : Char) : Char :=
  if c = ' ' then '-' else c.toLower

/-- Modelled from the spec: output_directory naming derived from a
slugified title. -/
def slugify (s : String) : String :=
  String.mk (s.data.map slugChar)

/-- Modelled from the spec: map RawArtifacts into a successful GameResult
with an empty error_message. -/
def mkSuccessResult (d : String) (rc : ResolvedConfig) (a : RawArtifacts) : GameResult :=
  { title := a.title
    description := d
    engine := engine_to_string rc.engine
    success := true
    files_generated := a.files
    output_directory := slugify a.title
    error_message := "" }

/-- Modelled from the spec: a failed GameResult captures the synthesis
error message verbatim and reports no partial files. -/
def mkFailedResult (d : String) (rc : ResolvedConfig) (msg : String) : GameResult :=
  { title := ""
    description := d
    engine := engine_to_string rc.engine
    success := false
    files_generated := []
    output_directory := ""
    error_message := msg }

/-- Modelled from the spec: the job a generate call leaves behind once the
external synthesize capability has returned, at a given handle. On success
the job is Succeeded with a success result; on failure it is Failed with
the error captured in the terminal result. -/
def generateJob (synth : SynthFn) (d : String) (rc : ResolvedConfig) (h : Int) : GenerationJob :=
  match synth d rc with
  | Except.ok a =>
      { handle := h
        state := JobState.Succeeded
        description := d
        config := rc
        result := some (mkSuccessResult d rc a)
        error := none }
  | Except.error (GenError.err msg) =>
      { handle := h
        state := JobState.Failed
        description := d
        config := rc
        result := some (mkFailedResult d rc msg)
        error := some msg }

/-! ## Spec-modelled ConfigResolver -/

/-- The complexity whitelist from the spec data model. -/
def validComplexities : List String :=
  ["simple", "intermediate", "advanced"]

/-- Splits a lowercased character stream into words at spaces; the
accumulator holds the current word reversed. -/
def splitWordsAux : List Char → List Char → List (List Char)
  | [], acc => if acc = [] then [] else [acc.reverse]
  | c :: cs, acc =>
      if c = ' ' then
        (if acc = [] then splitWordsAux cs [] else acc.reverse :: splitWordsAux cs [])
      else
        splitWordsAux cs (c :: acc)

/-- The lowercased words of a description. -/
def descWords (d : String) : List (List Char) :=
  splitWordsAux (d.data.map Char.toLower) []

/-- Modelled from the spec: the 3D/physics-heavy keywords driving
Auto engine selection. -/
def heavyKeywords : List (List Char) :=
  ["3d".data, "physics".data]

/-- True when the description contains a 3D/physics-heavy keyword. -/
def hasHeavyKeyword (d : String) : Bool :=
  heavyKeywords.any (fun kw => (descWords d).any (fun w => w = kw))

/-- Modelled from the spec: deterministic Auto selection. A 3D/physics
keyword selects the engine with the matching capability tag (Bevy);
otherwise the fixed default Arcade. A non-Auto engine passes through. -/
def resolveEngine : GameEngine → String → GameEngine
  | GameEngine.Auto, d => if hasHeavyKeyword d then GameEngine.Bevy else GameEngine.Arcade
  | GameEngine.Bevy, _ => GameEngine.Bevy
  | GameEngine.Godot, _ => GameEngine.Godot
  | GameEngine.Arcade, _ => GameEngine.Arcade

/-- Modelled from the spec: ConfigError, reporting the offending field. -/
inductive ConfigError
  | UnknownValue (field : String)
deriving DecidableEq, Repr

/-- A human-readable message for a ConfigError. -/
def ConfigError.message : ConfigError → String
  | ConfigError.UnknownValue f => String.append "UnknownValue: " f

/-- Modelled from the spec: ConfigResolver.resolve validates complexity
and feature names against the whitelist loaded from the EngineCatalog,
then concretizes the engine. -/
def resolve (wl : List String) (config : GameConfig) (d : String) :
    Except ConfigError ResolvedConfig :=
  if validComplexities.contains config.complexity then
    if config.features.all (fun f => wl.contains f) then
      Except.ok
        { engine := resolveEngine config.engine d
          complexity := config.complexity
          target_audience := config.target_audience
          features := config.features }
    else
      Except.error (ConfigError.UnknownValue "features")
  else
    Except.error (ConfigError.UnknownValue "complexity")

/-! ## Spec-modelled JobRegistry -/

/-- Modelled from the spec: the instance-indexed job table with a
monotonically increasing next handle, never decremented. -/
structure JobRegistry where
  next_handle : Int := 0
  jobs : List (Int × GenerationJob) := []
deriving DecidableEq, Repr

/-- The registry a fresh process starts from. -/
def initialRegistry : JobRegistry := {}

/-- Modelled from the spec: register ships the next handle and bumps the
counter; the counter is the only source of handles and is never reused. -/
def JobRegistry.registerJob (reg : JobRegistry) (j : GenerationJob) :
    Int × JobRegistry :=
  (reg.next_handle,
   { next_handle := reg.next_handle + 1
     jobs := reg.jobs ++ [(reg.next_handle, { j with handle := reg.next_handle })] })

/-- Replaces the job stored at a handle, leaving other entries and the
counter untouched. -/
def JobRegistry.updateJob (reg : JobRegistry) (h : Int) (j : GenerationJob) :
    JobRegistry :=
  { reg with jobs := reg.jobs.map (fun p => if p.1 = h then (p.1, j) else p) }

/-- Modelled from the spec: evict drops the entry for a handle unless the
job is Running; the next-handle counter is untouched, so handles are
never reissued after eviction. -/
def JobRegistry.evict (reg : JobRegistry) (h : Int) : JobRegistry :=
  { reg with jobs := reg.jobs.filter (fun p => decide (p.1 ≠ h ∨ p.2.state = JobState.Running)) }

/-- Looks up the job snapshot stored at a handle. -/
def JobRegistry.findJob (reg : JobRegistry) (h : Int) : Option GenerationJob :=
  (reg.jobs.find? (fun p => p.1 == h)).map (fun p => p.2)

/-- One boundary-visible registry operation: a register from a generate
call, or a capacity eviction. -/
inductive RegistryOp
  | registerOp (j : GenerationJob)
  | evictOp (h : Int)
deriving DecidableEq, Repr

/-- Runs a sequence of registry operations, collecting the handles issued
to register calls in issuance order. -/
def runOps : JobRegistry → List RegistryOp → JobRegistry × List Int
  | reg, [] => (reg, [])
  | reg, RegistryOp.registerOp j :: rest =>
      ((runOps (reg.registerJob j).2 rest).1,
       (reg.registerJob j).1 :: (runOps (reg.registerJob j).2 rest).2)
  | reg, RegistryOp.evictOp h :: rest => runOps (reg.evict h) rest

/-! ## Spec-modelled ProcessState and C boundary -/

/-- Modelled from the spec: process-wide state behind the C boundary:
the initialization gate, the unrecoverable-failure flag, the feature
whitelist loaded from the EngineCatalog, the JobRegistry, and the last
error string surfaced through get_last_error. -/
structure CoreState where
  initialized : Bool := false
  init_failed : Bool := false
  whitelist : List String := []
  registry : JobRegistry := {}
  last_error : String := ""
deriving DecidableEq, Repr

/-- Modelled from the spec: ai_game_dev_get_last_error returns the last
error observed. -/
def get_last_error (st : CoreState) : String :=
  st.last_error

/-- Modelled from the spec: ai_game_dev_init returns 0 on success and is
idempotent when already initialized; a prior unrecoverable failure yields
a non-zero code. -/
def initCore (st : CoreState) : Int × CoreState :=
  if st.initialized then (0, st)
  else if st.init_failed then (2, st)
  else (0, { st with initialized := true })

/-- Modelled from the spec: the job freshly constructed in Pending by
GenerationEngine.generate before registration. -/
def pendingJob (d : String) (rc : ResolvedConfig) : GenerationJob :=
  { handle := 0
    state := JobState.Pending
    description := d
    config := rc
    result := none
    error := none }

/-- Modelled from the spec: ai_game_dev_create_game. Before init it
returns the negative sentinel and records NotInitialized; a config
rejected by resolve returns the sentinel with the validation message and
registers no job; otherwise the job is registered in Pending, synthesis
runs, the registry entry is updated to the terminal job, and the
non-negative handle is returned. The config arrives already parsed from
JSON, the marshaling being binding glue outside the core contract. -/
def create_game (synth : SynthFn) (st : CoreState) (d : String) (config : GameConfig) :
    Int × CoreState :=
  if st.initialized then
    match resolve st.whitelist config d with
    | Except.error e => (-1, { st with last_error := e.message })
    | Except.ok rc =>
        (st.registry.next_handle,
         { st with registry :=
            (((st.registry.registerJob (pendingJob d rc)).2).updateJob
              st.registry.next_handle
              (generateJob synth d rc st.registry.next_handle)) })
  else
    (-1, { st with last_error := "NotInitialized" })

/-! ## Result serialization and the job step relation -/

/-- Escapes one character for a JSON string body. -/
def escChar (c : Char) : List Char :=
  if c = '"' then ['\\', '"'] else if c = '\\' then ['\\', '\\'] else [c]

/-- Serializes a string as a JSON string literal. -/
def jsonString (s : String) : String :=
  String.mk ('"' :: (s.data.map escChar).flatten ++ ['"'])

/-- Serializes a list of strings as a JSON array. -/
def jsonStrArray (xs : List String) : String :=
  "[" ++ String.intercalate "," (xs.map jsonString) ++ "]"

/-- Serializes a GameResult field-for-field as the boundary JSON. -/
def GameResult.to_json (r : GameResult) : String :=
  "\x7b\"title\":" ++ jsonString r.title ++
  ",\"description\":" ++ jsonString r.description ++
  ",\"engine\":" ++ jsonString r.engine ++
  ",\"success\":" ++ (if r.success then "true" else "false") ++
  ",\"files_generated\":" ++ jsonStrArray r.files_generated ++
  ",\"output_directory\":" ++ jsonString r.output_directory ++
  ",\"error_message\":" ++ jsonString r.error_message ++ "\x7d"

/-- Modelled from the spec: ai_game_dev_get_result serializes the job
snapshot result; a job not yet holding a result serializes to the empty
string placeholder. -/
def GenerationJob.serializeResult (j : GenerationJob) : String :=
  match j.result with
  | some r => r.to_json
  | none => ""

/-- Modelled from the spec: the lifecycle transitions a job may take:
Pending to Running when synthesis begins, Running to Succeeded with a
result, Running to Failed capturing the error. No constructor leaves a
terminal state. -/
inductive JobStep : GenerationJob → GenerationJob → Prop
  | start (j : GenerationJob) (h : j.state = JobState.Pending) :
      JobStep j { j with state := JobState.Running }
  | succeed (j : GenerationJob) (r : GameResult) (h : j.state = JobState.Running) :
      JobStep j { j with state := JobState.Succeeded, result := some r }
  | fail (j : GenerationJob) (msg : String) (h : j.state = JobState.Running) :
      JobStep j
        { j with
            state := JobState.Failed
            result := some (mkFailedResult j.description j.config msg)
            error := some msg }

/-! ## Concrete instances used by witnesses -/

/-- A concrete resolved config for witness statements. -/
def rcEx : ResolvedConfig :=
  { engine := GameEngine.Arcade
    complexity := "simple"
    target_audience := ""
    features := [] }

/-- A concrete synthesize capability that always succeeds with one file. -/
def synthOkEx : SynthFn :=
  fun _ _ => Except.ok { title := "Robot Lava Jumper", files := ["main.py"] }

/-- A concrete synthesize capability that always fails. -/
def synthFailEx : SynthFn :=
  fun _ _ => Except.error (GenError.err "synthesis exploded")

/-- A concrete initialized core state. -/
def stReady : CoreState :=
  { initialized := true }

/-- A concrete successful GameResult for witness statements. -/
def resEx : GameResult :=
  mkSuccessResult "d" rcEx { title := "Robot Lava Jumper", files := ["main.py"] }

/-- A concrete terminal job for witness statements. -/
def jobEx : GenerationJob :=
  { handle := 0
    state := JobState.Succeeded
    description := "d"
    config := rcEx
    result := some resEx
    error := none }

/-- The resolved config produced for the default GameConfig and a plain
description. -/
def rcIntermediate : ResolvedConfig :=
  { engine := GameEngine.Arcade
    complexity := "intermediate"
    target_audience := ""
    features := [] }

/-! ## Helper lemmas -/

theorem configError_message_ne_empty (e : ConfigError) : e.message ≠ "" := by
  cases e with
  | UnknownValue f =>
    intro hcontra
    have hdata : (ConfigError.message (ConfigError.UnknownValue f)).data = "".data :=
      congrArg String.data hcontra
    cases f with
    | mk l => simp [ConfigError.message, String.append] at hdata

theorem jobStep_not_terminal (j k : GenerationJob) (hstep : JobStep j k) :
    j.state.isTerminal = false := by
  cases hstep with
  | start h => rw [h]; rfl
  | succeed r h => rw [h]; rfl
  | fail msg h => rw [h]; rfl

/-! ## Claim theorems -/

/-- Claim C4, counterexample: the claim says every config-building
operation deduplicates features; in the C++ source add_feature is a plain
push_back, so adding the same feature twice leaves a duplicate entry. -/
theorem add_feature_allows_duplicates :
    ((({} : GameConfig).add_feature "jump").add_feature "jump").features = ["jump", "jump"] ∧
    ¬ (((({} : GameConfig).add_feature "jump").add_feature "jump").features).Nodup :=
  ⟨rfl, by decide⟩

/-- Claim C4, amended: the GameConfig builders preserve insertion order
but do not deduplicate: add_feature appends the entry at the end keeping
all existing entries, and with_features stores the given list verbatim. -/
theorem config_builders_append_order (c : GameConfig) (f : String) (fs : List String) :
    (c.add_feature f).features = c.features ++ [f] ∧ (c.with_features fs).features = fs :=
  ⟨rfl, rfl⟩

/-- Claim C5: when resolve succeeds, a non-Auto engine passes through
unchanged, and Auto with no 3D/physics-heavy keyword in the description
resolves to Arcade. -/
theorem resolve_engine_spec (wl : List String) (c : GameConfig) (d : String)
    (rc : ResolvedConfig) (hres : resolve wl c d = Except.ok rc) :
    (c.engine ≠ GameEngine.Auto → rc.engine = c.engine) ∧
    (c.engine = GameEngine.Auto → hasHeavyKeyword d = false → rc.engine = GameEngine.Arcade) := by
  unfold resolve at hres
  split at hres
  · split at hres
    · cases hres
      constructor
      · intro hne
        cases he : c.engine
        · rfl
        · rfl
        · rfl
        · exact absurd he hne
      · intro hauto hkw
        show resolveEngine c.engine d = GameEngine.Arcade
        rw [hauto]
        simp [resolveEngine, hkw]
    · exact Except.noConfusion hres
  · exact Except.noConfusion hres

/-- Claim C5 witness: the spec scenario description with engine Auto
resolves to Arcade, and a Godot config passes through. -/
theorem resolve_engine_spec_witness :
    rcIntermediate.engine = GameEngine.Arcade :=
  (resolve_engine_spec [] {} "a simple platformer where a robot jumps over lava"
      rcIntermediate rfl).2 rfl (by decide)

/-- Claim C6: resolve is deterministic: identical config and description
inputs give identical ResolvedConfig outputs, also for engine Auto,
because the modelled resolver is a pure function of its inputs. -/
theorem resolve_deterministic (wl : List String) (c1 c2 : GameConfig) (d1 d2 : String)
    (hc : c1 = c2) (hd : d1 = d2) :
    resolve wl c1 d1 = resolve wl c2 d2 := by
  rw [hc, hd]

/-- Claim C6 witness: two resolve calls on the same Auto config and
description agree. -/
theorem resolve_deterministic_witness :
    resolve [] {} "a puzzle game" = resolve [] {} "a puzzle game" :=
  resolve_deterministic [] {} {} "a puzzle game" "a puzzle game" rfl rfl

/-- Claim C9: init is idempotent once a prior init has succeeded: on an
initialized state it returns the 0 success code and leaves the state
unchanged, so every subsequent init call also returns 0. -/
theorem init_idempotent_when_initialized (st : CoreState)
    (hinit : st.initialized = true) :
    initCore st = (0, st) := by
  unfold initCore
  rw [hinit]
  rfl

/-- Claim C9 witness: init on an already-initialized concrete state
returns 0 and the same state. -/
theorem init_idempotent_witness : initCore stReady = (0, stReady) :=
  init_idempotent_when_initialized stReady rfl

/-- Claim C10: the Node.js initialize callback always receives Null as
its first (error) argument and the boolean (init result == 0) as its
second; a failing init is reported only as the value false, never as an
Error object. -/
theorem initWorker_callback_shape (extInit : Unit → Int) :
    (runInitWorker extInit).1 = NodeValue.null ∧
    (runInitWorker extInit).2 = NodeValue.boolean (decide (extInit () = 0)) ∧
    (extInit () ≠ 0 → (runInitWorker extInit).2 = NodeValue.boolean false) := by
  refine ⟨rfl, rfl, ?_⟩
  intro hne
  simp [runInitWorker, hne]

/-- Claim C10 witness: a failing external init (code 1) reaches the
callback as the boolean false. -/
theorem initWorker_callback_shape_witness :
    (runInitWorker (fun _ => (1 : Int))).2 = NodeValue.boolean false :=
  (initWorker_callback_shape (fun _ => (1 : Int))).2.2 (by decide)

/-- Claim C1: every GameResult a generate call produces satisfies
success == true iff error_message is empty and files_generated is
non-empty, and a failed result always carries a non-empty error_message,
given that the external capability reports non-empty error messages and
non-empty artifact sets. -/
theorem generateJob_result_invariant (synth : SynthFn) (d : String) (rc : ResolvedConfig)
    (h : Int) (r : GameResult)
    (hr : (generateJob synth d rc h).result = some r)
    (hmsg : ∀ msg, synth d rc = Except.error (GenError.err msg) → msg ≠ "")
    (hfiles : ∀ a, synth d rc = Except.ok a → a.files ≠ []) :
    (r.success = true ↔ (r.error_message = "" ∧ r.files_generated ≠ [])) ∧
    (r.success = false → r.error_message ≠ "") := by
  unfold generateJob at hr
  cases hs : synth d rc with
  | ok a =>
    rw [hs] at hr
    simp only [Option.some.injEq] at hr
    subst hr
    have hf := hfiles a hs
    constructor
    · simp [mkSuccessResult, hf]
    · intro hfalse
      simp [mkSuccessResult] at hfalse
  | error e =>
    cases e with
    | err msg =>
      rw [hs] at hr
      simp only [Option.some.injEq] at hr
      subst hr
      have hm := hmsg msg hs
      constructor
      · simp [mkFailedResult, hm]
      · intro hfalse
        simpa [mkFailedResult] using hm

/-- Claim C1 witness: a successful synthesis on a concrete input yields a
result satisfying the invariant. -/
theorem generateJob_result_invariant_witness :
    (resEx.success = true ↔ (resEx.error_message = "" ∧ resEx.files_generated ≠ [])) ∧
    (resEx.success = false → resEx.error_message ≠ "") :=
  generateJob_result_invariant synthOkEx "d" rcEx 0 resEx rfl
    (fun _ hm => Except.noConfusion hm)
    (fun a ha => by
      injection ha with h2
      rw [← h2]
      decide)

/-- Claim C7: once a job is terminal, no lifecycle step applies any more,
so after any further evolution the serialized GameResult returned for its
handle is byte-identical on every call. -/
theorem get_result_idempotent_after_terminal (j k : GenerationJob)
    (hterm : j.state.isTerminal = true)
    (hreach : Relation.ReflTransGen JobStep j k) :
    k.serializeResult = j.serializeResult := by
  rcases Relation.ReflTransGen.cases_head hreach with heq | ⟨u, hstep, _⟩
  · rw [← heq]
  · rw [jobStep_not_terminal j u hstep] at hterm
    exact Bool.noConfusion hterm

/-- Claim C7 witness: a concrete Succeeded job serializes identically
across repeated reads. -/
theorem get_result_idempotent_witness :
    jobEx.serializeResult = jobEx.serializeResult :=
  get_result_idempotent_after_terminal jobEx jobEx rfl Relation.ReflTransGen.refl

/-- Claim C2: create_game returns a non-negative handle on success or a
negative sentinel with a non-empty retrievable error message on failure;
called before init it returns a negative handle and get_last_error
reports NotInitialized. -/
theorem create_game_handle_contract (synth : SynthFn) (st : CoreState) (d : String)
    (c : GameConfig) (hnn : 0 ≤ st.registry.next_handle) :
    (0 ≤ (create_game synth st d c).1 ∨
      ((create_game synth st d c).1 < 0 ∧
        get_last_error (create_game synth st d c).2 ≠ "")) ∧
    (st.initialized = false →
      (create_game synth st d c).1 < 0 ∧
      get_last_error (create_game synth st d c).2 = "NotInitialized") := by
  unfold create_game get_last_error
  by_cases hinit : st.initialized = true
  · simp only [hinit, if_true]
    constructor
    · cases hres : resolve st.whitelist c d with
      | ok rc =>
        simp only [hres]
        exact Or.inl hnn
      | error e =>
        simp only [hres]
        exact Or.inr ⟨by decide, configError_message_ne_empty e⟩
    · intro hfalse
      exact Bool.noConfusion hfalse
  · rw [if_neg hinit]
    constructor
    · refine Or.inr ⟨?_, ?_⟩
      · show (-1 : Int) < 0
        decide
      · show ("NotInitialized" : String) ≠ ""
        decide
    · intro hfalse2
      refine ⟨?_, rfl⟩
      show (-1 : Int) < 0
      decide

/-- Claim C2 witness: create_game on an uninitialized fresh state returns
a negative handle and get_last_error reports NotInitialized. -/
theorem create_game_handle_contract_witness :
    (create_game synthOkEx ({} : CoreState) "d" {}).1 < 0 ∧
    get_last_error (create_game synthOkEx ({} : CoreState) "d" {}).2 = "NotInitialized" :=
  (create_game_handle_contract synthOkEx ({} : CoreState) "d" {} (by decide)).2 rfl

theorem find_map_append (l : List (Int × GenerationJob)) (n : Int)
    (jold jnew : GenerationJob) (hlt : ∀ p ∈ l, p.1 < n) :
    (((l ++ [(n, jold)]).map (fun p => if p.1 = n then (p.1, jnew) else p)).find?
      (fun p => p.1 == n)) = some (n, jnew) := by
  induction l with
  | nil => simp
  | cons hd tl ih =>
    have hne : hd.1 ≠ n := ne_of_lt (hlt hd (List.mem_cons_self hd tl))
    rw [List.cons_append, List.map_cons, if_neg hne,
        List.find?_cons_of_neg _ (by simpa using hne)]
    exact ih (fun p hp => hlt p (List.mem_cons_of_mem hd hp))

theorem findJob_register_update (reg : JobRegistry) (j jnew : GenerationJob)
    (hinv : ∀ p ∈ reg.jobs, p.1 < reg.next_handle) :
    (((reg.registerJob j).2).updateJob reg.next_handle jnew).findJob reg.next_handle
      = some jnew := by
  unfold JobRegistry.registerJob JobRegistry.updateJob JobRegistry.findJob
  rw [find_map_append reg.jobs reg.next_handle _ jnew hinv]
  rfl

/-- Claim C3: with the process initialized and the config accepted by
resolve, a synthesis failure does not fail the create_game call: the call
still returns a non-negative handle, and the failure is observable only
through the registered job, which is terminal Failed with a result whose
success is false. -/
theorem create_game_records_failure_in_job (synth : SynthFn) (st : CoreState)
    (d : String) (c : GameConfig) (rc : ResolvedConfig) (msg : String)
    (hinit : st.initialized = true)
    (hres : resolve st.whitelist c d = Except.ok rc)
    (hsynth : synth d rc = Except.error (GenError.err msg))
    (hinv : ∀ p ∈ st.registry.jobs, p.1 < st.registry.next_handle)
    (hnn : 0 ≤ st.registry.next_handle) :
    0 ≤ (create_game synth st d c).1 ∧
    ∃ j, (create_game synth st d c).2.registry.findJob (create_game synth st d c).1
        = some j ∧
      j.state = JobState.Failed ∧ ∃ r, j.result = some r ∧ r.success = false := by
  unfold create_game
  simp only [hinit, if_true, hres]
  refine ⟨hnn, generateJob synth d rc st.registry.next_handle, ?_, ?_, ?_⟩
  · exact findJob_register_update st.registry (pendingJob d rc)
      (generateJob synth d rc st.registry.next_handle) hinv
  · unfold generateJob
    rw [hsynth]
  · refine ⟨mkFailedResult d rc msg, ?_, rfl⟩
    unfold generateJob
    rw [hsynth]

/-- Claim C3 witness: on an initialized state with a failing synthesizer,
create_game still returns handle 0 and the registered job is Failed with
an unsuccessful result. -/
theorem create_game_records_failure_witness :
    0 ≤ (create_game synthFailEx stReady "d" {}).1 ∧
    ∃ j, (create_game synthFailEx stReady "d" {}).2.registry.findJob
          (create_game synthFailEx stReady "d" {}).1 = some j ∧
      j.state = JobState.Failed ∧ ∃ r, j.result = some r ∧ r.success = false :=
  create_game_records_failure_in_job synthFailEx stReady "d" {} rcIntermediate
    "synthesis exploded" rfl rfl rfl (by simp [stReady]) (by decide)

theorem runOps_handles_lower (ops : List RegistryOp) :
    ∀ reg : JobRegistry, ∀ h ∈ (runOps reg ops).2, reg.next_handle ≤ h := by
  induction ops with
  | nil =>
    intro reg h hmem
    simp [runOps] at hmem
  | cons op rest ih =>
    intro reg h hmem
    cases op with
    | registerOp j =>
      rw [runOps] at hmem
      rcases List.mem_cons.mp hmem with heq | hmem2
      · rw [heq]
        exact le_refl reg.next_handle
      · have hge := ih (reg.registerJob j).2 h hmem2
        have hstep : (reg.registerJob j).2.next_handle = reg.next_handle + 1 := rfl
        rw [hstep] at hge
        omega
    | evictOp hh =>
      rw [runOps] at hmem
      have hge := ih (reg.evict hh) h hmem
      have hstep : (reg.evict hh).next_handle = reg.next_handle := rfl
      rw [hstep] at hge
      exact hge

theorem runOps_handles_pairwise (ops : List RegistryOp) :
    ∀ reg : JobRegistry, List.Pairwise (fun a b => a < b) (runOps reg ops).2 := by
  induction ops with
  | nil =>
    intro reg
    simp [runOps]
  | cons op rest ih =>
    intro reg
    cases op with
    | registerOp j =>
      rw [runOps]
      refine List.Pairwise.cons ?_ (ih (reg.registerJob j).2)
      intro b hb
      have hge := runOps_handles_lower rest (reg.registerJob j).2 b hb
      have hstep : (reg.registerJob j).2.next_handle = reg.next_handle + 1 := rfl
      rw [hstep] at hge
      have : (reg.registerJob j).1 = reg.next_handle := rfl
      rw [this]
      omega
    | evictOp hh =>
      rw [runOps]
      exact ih (reg.evict hh)

/-- Claim C8: over any sequence of register and evict operations from a
fresh registry, the issued handles are non-negative, strictly increasing
in issuance order, and pairwise distinct: no handle is ever reused, also
after evictions, so distinct generate calls receive distinct handles. -/
theorem registry_handles_increasing_nonneg (ops : List RegistryOp) :
    List.Pairwise (fun a b => a < b) (runOps initialRegistry ops).2 ∧
    (runOps initialRegistry ops).2.Nodup ∧
    ∀ h ∈ (runOps initialRegistry ops).2, 0 ≤ h := by
  refine ⟨runOps_handles_pairwise ops initialRegistry, ?_, ?_⟩
  · exact (runOps_handles_pairwise ops initialRegistry).imp (fun hlt => ne_of_lt hlt)
  · intro h hmem
    exact runOps_handles_lower ops initialRegistry h hmem

/-- Claim C8 witness: a concrete trace of two registers around an evict
issues exactly the handles 0 then 1, which are distinct even though the
first job was evicted in between. -/
theorem registry_handles_witness :
    (runOps initialRegistry
        [RegistryOp.registerOp (pendingJob "d" rcEx), RegistryOp.evictOp 0,
         RegistryOp.registerOp (pendingJob "e" rcEx)]).2.Nodup ∧
    (runOps initialRegistry
        [RegistryOp.registerOp (pendingJob "d" rcEx), RegistryOp.evictOp 0,
         RegistryOp.registerOp (pendingJob "e" rcEx)]).2 = [0, 1] :=
  ⟨(registry_handles_increasing_nonneg
      [RegistryOp.registerOp (pendingJob "d" rcEx), RegistryOp.evictOp 0,
       RegistryOp.registerOp (pendingJob "e" rcEx)]).2.1, rfl⟩
